import Mathlib

/-
Verification of the quiz backend in src/main.py.

The service is modelled shallowly:
  - the process environment is a function from variable names to an optional
    value (os.getenv returns None when the variable is unset);
  - the upstream generative API together with the json.loads call on the
    extracted candidate text is modelled as an oracle value of type Upstream,
    since both live outside this repository (the requests library and the
    Python standard library);
  - Python strings are Lean strings, with the handful of str methods the code
    uses (strip, strip of a given character, find, rfind, slicing,
    truncation) defined over the underlying character list with Python
    semantics for non-negative indices;
  - the /test response dict is an association list with Python dict update
    semantics (assignment to an existing key updates it in place and keeps
    insertion order).
-/

namespace QuizBackend

/-- Process environment: os.getenv returns the value when set, None otherwise. -/
def Env : Type := String → Option String

/-- Python truthiness of an optional string: None and the empty string are falsy. -/
def truthy : Option String → Bool
  | none => false
  | some s => !s.isEmpty

/-- Model of os.getenv with a default value: the default is used only when the
variable is unset, even if it is set to the empty string. -/
def getenvD (env : Env) (k d : String) : String :=
  (env k).getD d

/-- Characters Python str.strip removes. -/
def pyIsSpace (c : Char) : Bool :=
  c = ' ' || c = '\t' || c = '\n' || c = '\r' || c = '\x0b' || c = '\x0c'

/-- Python str.strip(): drop leading and trailing whitespace. -/
def pyStrip (s : String) : String :=
  String.mk (((s.data.dropWhile pyIsSpace).reverse.dropWhile pyIsSpace).reverse)

/-- Python str.strip(c): drop leading and trailing occurrences of a character. -/
def pyStripChar (s : String) (c : Char) : String :=
  String.mk (((s.data.dropWhile (· = c)).reverse.dropWhile (· = c)).reverse)

/-- Index of the first occurrence of a character in a character list. -/
def findIdxChar (c : Char) : List Char → Option Nat
  | [] => none
  | x :: xs => if x = c then some 0 else (findIdxChar c xs).map (· + 1)

/-- Python str.find(c), as an Option instead of the -1 sentinel. -/
def pyFind (s : String) (c : Char) : Option Nat :=
  findIdxChar c s.data

/-- Python str.rfind(c), as an Option instead of the -1 sentinel. -/
def pyRfind (s : String) (c : Char) : Option Nat :=
  (findIdxChar c s.data.reverse).map (fun i => s.data.length - 1 - i)

/-- Python slice s[a:b] for non-negative bounds: empty when a is at or past b,
clamped at the end of the string. -/
def pySlice (s : String) (a b : Nat) : String :=
  String.mk ((s.data.drop a).take (b - a))

/-- Python truncation s[:n]. -/
def pyTake (s : String) (n : Nat) : String :=
  String.mk (s.data.take n)

/-- A quiz item: the prompt and solution strings the endpoint returns. -/
structure QuizItem where
  prompt : String
  solution : String
deriving DecidableEq

/-- The fixed fallback pool hardcoded in the body of the fallback selector. -/
def pool : List QuizItem :=
  [ { prompt := "If f(x) = 2x^2 - 3x + 1, what is f(3)?", solution := "10" },
    { prompt := "Which planet has the strongest surface gravity among Earth, Mars, and Jupiter?",
      solution := "Jupiter" },
    { prompt := "Who wrote the play \x27Hamlet\x27?", solution := "William Shakespeare" },
    { prompt := "In chemistry, what is the pH of a neutral solution at 25°C?", solution := "7" },
    { prompt := "What is the Big-O time complexity of binary search on a sorted array?",
      solution := "O(log n)" } ]

/-- The index computed on line 99 of src/main.py:
(len(os.getenv("HOSTNAME", "x")) + len(os.getenv("PORT", "0"))) % len(pool). -/
def fallbackIdx (env : Env) : Nat :=
  ((getenvD env "HOSTNAME" "x").length + (getenvD env "PORT" "0").length) % pool.length

/-- Model of _fallback_question: select the pool item at the computed index. -/
def fallback_question (env : Env) : QuizItem :=
  pool.get ⟨fallbackIdx env, Nat.mod_lt _ (by decide)⟩

/-- Behaviour of the external world seen by get_quiz once a credential is set:
either some exception is raised before a candidate text is in hand (transport
error, timeout, raise_for_status on a non-success status, a non-JSON body in
resp.json(), or a failure while indexing into the candidates structure is
folded into the failed extraction), or a candidate text was extracted, together
with an oracle for json.loads on the sliced string. The oracle returns, on a
parse success, the pair (str(obj.get("prompt", "")), str(obj.get("solution", "")))
and None when json.loads raises. -/
inductive Upstream where
  | exn
  | reply (text : Option String) (loads : String → Option (String × String))

/-- The text_stripped local of get_quiz: text.strip().strip of backticks. -/
def textStripped (t : String) : String :=
  pyStripChar (pyStrip t) '\x60'

/-- Model of the /quiz endpoint get_quiz (src/main.py lines 102-151). -/
def get_quiz (env : Env) (up : Upstream) : QuizItem :=
  if !truthy (env "GEMINI_API_KEY") then fallback_question env
  else
    match up with
    | .exn => fallback_question env
    | .reply none _ => fallback_question env
    | .reply (some t) loads =>
      if t = "" then fallback_question env
      else
        match pyFind (textStripped t) '\x7b', pyRfind (textStripped t) '\x7d' with
        | some a, some b =>
          match loads (pySlice (textStripped t) a (b + 1)) with
          | none => fallback_question env
          | some (p, s) =>
            if pyStrip p = "" ∨ pyStrip s = "" then fallback_question env
            else { prompt := pyTake (pyStrip p) 300, solution := pyTake (pyStrip s) 100 }
        | _, _ => fallback_question env

/-- The exact condition under which get_quiz takes its success path: a truthy
credential, an extracted non-empty text, a locatable brace pair, a successful
parse, and both fields non-empty after trimming. -/
def quizSuccess (env : Env) (up : Upstream) : Bool :=
  truthy (env "GEMINI_API_KEY") &&
    match up with
    | .exn => false
    | .reply none _ => false
    | .reply (some t) loads =>
      !(t = "") &&
        (match pyFind (textStripped t) '\x7b', pyRfind (textStripped t) '\x7d' with
         | some a, some b =>
           match loads (pySlice (textStripped t) a (b + 1)) with
           | none => false
           | some (p, s) => !(pyStrip p = "") && !(pyStrip s = "")
         | _, _ => false)

/-- Values stored in the /test response dict: Python None, a string, or the
list of collection names. -/
inductive Val where
  | vnull
  | s (v : String)
  | arr (l : List String)
deriving DecidableEq

/-- Possible outcomes of the optional database collaborator used by the /test
endpoint: the import raises ImportError; the import or the attribute accesses
raise some other exception with message text msg; the imported handle is None;
or the handle exists, with the optional value of db.name (None when hasattr
fails) and the outcome of db.list_collection_names(). -/
inductive DbOutcome where
  | importError
  | importExn (msg : String)
  | dbNone
  | dbSome (hname : Option String) (cols : Except String (List String))

/-- Python dict assignment on an association list: update the value in place
when the key exists, else append the pair. -/
def dictSet : List (String × Val) → String → Val → List (String × Val)
  | [], k, v => [(k, v)]
  | (k0, v0) :: rest, k, v =>
    if k0 = k then (k0, v) :: rest else (k0, v0) :: dictSet rest k v

/-- The response dict literal built at the top of test_database. -/
def initResponse : List (String × Val) :=
  [ ("backend", .s "✅ Running"),
    ("database", .s "❌ Not Available"),
    ("database_url", .vnull),
    ("database_name", .vnull),
    ("connection_status", .s "Not Connected"),
    ("collections", .arr []) ]

/-- Model of the /test endpoint test_database (src/main.py lines 26-68). -/
def test_database (env : Env) (out : DbOutcome) : List (String × Val) :=
  let r := initResponse
  let r :=
    match out with
    | .importError =>
      dictSet r "database" (.s "❌ Database module not found (run enable-database first)")
    | .importExn m =>
      dictSet r "database" (.s ("❌ Error: " ++ pyTake m 50))
    | .dbNone =>
      dictSet r "database" (.s "⚠️  Available but not initialized")
    | .dbSome hname cols =>
      let r := dictSet r "database" (.s "✅ Available")
      let r := dictSet r "database_url" (.s "✅ Configured")
      let r := dictSet r "database_name" (.s (hname.getD "✅ Connected"))
      let r := dictSet r "connection_status" (.s "Connected")
      match cols with
      | .ok names =>
        let r := dictSet r "collections" (.arr (names.take 10))
        dictSet r "database" (.s "✅ Connected & Working")
      | .error e =>
        dictSet r "database" (.s ("⚠️  Connected but Error: " ++ pyTake e 50))
  let r := dictSet r "database_url" (.s (if truthy (env "DATABASE_URL") then "✅ Set" else "❌ Not Set"))
  dictSet r "database_name" (.s (if truthy (env "DATABASE_NAME") then "✅ Set" else "❌ Not Set"))

/-- The environment of the worked example in the spec: HOSTNAME=abc, PORT=8000. -/
def envAbc8000 : Env := fun k =>
  if k = "HOSTNAME" then some "abc" else if k = "PORT" then some "8000" else none

/-- An empty environment: every variable unset. -/
def envNone : Env := fun _ => none

/-- An environment with only the API credential set. -/
def envKey : Env := fun k =>
  if k = "GEMINI_API_KEY" then some "k" else none

/-- A concrete json.loads oracle used to exercise the success path: the
string \x7bx\x7d parses to the pair (Q1, A1), anything else fails. -/
def loadsW : String → Option (String × String) := fun str =>
  if str = "\x7bx\x7d" then some ("Q1", "A1") else none

/-- An environment where DATABASE_URL is set to the empty string. -/
def envUrlEmpty : Env := fun k =>
  if k = "DATABASE_URL" then some "" else none

/-- An environment where DATABASE_URL is set to the string x. -/
def envUrlX : Env := fun k =>
  if k = "DATABASE_URL" then some "x" else none

/-- An environment where DATABASE_URL is set to the string y. -/
def envUrlY : Env := fun k =>
  if k = "DATABASE_URL" then some "y" else none

theorem fallback_mem (env : Env) : fallback_question env ∈ pool :=
  List.get_mem _ _ _

/-- C3: the fallback selector computes its index as the sum of the lengths of
the HOSTNAME and PORT environment strings modulo the pool size 5, and on
HOSTNAME=abc, PORT=8000 the index is 2 and the Shakespeare item is returned. -/
theorem fallback_index_spec (env : Env) :
    fallbackIdx env =
      ((getenvD env "HOSTNAME" "x").length + (getenvD env "PORT" "0").length) % 5 ∧
    fallbackIdx envAbc8000 = 2 ∧
    fallback_question envAbc8000 =
      { prompt := "Who wrote the play \x27Hamlet\x27?", solution := "William Shakespeare" } :=
  ⟨rfl, by decide, by decide⟩

/-- C10: for every environment the index computed in the fallback selector is
below the pool length 5, so the indexing is in bounds and the selector is a
total function that always returns a pool item. -/
theorem fallback_index_in_bounds (env : Env) :
    fallbackIdx env < pool.length ∧ pool.length = 5 ∧ fallback_question env ∈ pool :=
  ⟨Nat.mod_lt _ (by decide), rfl, fallback_mem env⟩

/-- C4: when the GEMINI_API_KEY variable is unset, get_quiz returns one of the
five hardcoded fallback items, whatever the upstream would have done. -/
theorem quiz_no_credential_in_pool (env : Env) (up : Upstream)
    (h : env "GEMINI_API_KEY" = none) : get_quiz env up ∈ pool := by
  unfold get_quiz
  rw [h]
  simp only [truthy, Bool.not_false, if_true]
  exact fallback_mem env

theorem quiz_no_credential_in_pool_witness :
    get_quiz envNone .exn ∈ pool :=
  quiz_no_credential_in_pool envNone .exn rfl

/-- C5: the fallback selector is deterministic; it reads only the HOSTNAME and
PORT variables, so any two environments agreeing on those two variables give
the same fallback item. The model is a pure function, matching the absence of
mutable state in the source. -/
theorem fallback_deterministic (e1 e2 : Env)
    (hh : e1 "HOSTNAME" = e2 "HOSTNAME") (hp : e1 "PORT" = e2 "PORT") :
    fallback_question e1 = fallback_question e2 := by
  have hidx : fallbackIdx e1 = fallbackIdx e2 := by
    unfold fallbackIdx getenvD
    rw [hh, hp]
  unfold fallback_question
  congr 1
  exact Fin.ext hidx

theorem fallback_deterministic_witness :
    fallback_question envAbc8000
      = fallback_question (fun k =>
          if k = "HOSTNAME" then some "abc"
          else if k = "PORT" then some "8000" else some "other") :=
  fallback_deterministic envAbc8000
    (fun k =>
      if k = "HOSTNAME" then some "abc"
      else if k = "PORT" then some "8000" else some "other")
    rfl rfl

/-- C1: whenever the success condition fails anywhere along the pipeline
(no truthy credential, exception before a candidate text, missing text,
empty text, no locatable brace pair, parse failure, or an empty field after
trimming), get_quiz returns the fallback item; the model is a total function,
so no error surfaces to the caller. -/
theorem quiz_failure_falls_back (env : Env) (up : Upstream)
    (h : quizSuccess env up = false) :
    get_quiz env up = fallback_question env := by
  cases hk : truthy (env "GEMINI_API_KEY") with
  | false => cases up <;> simp [get_quiz, hk]
  | true =>
    cases up with
    | exn => simp [get_quiz, hk]
    | reply text loads =>
      cases text with
      | none => simp [get_quiz, hk]
      | some t =>
        simp only [get_quiz, quizSuccess, hk, Bool.not_true, Bool.false_eq_true,
          if_false, Bool.true_and] at h ⊢
        by_cases ht : t = ""
        · simp [ht]
        · simp only [ht, decide_False, Bool.not_false, Bool.true_and, if_false] at h ⊢
          cases hfind : pyFind (textStripped t) '\x7b' with
          | none => simp [hfind]
          | some a =>
            cases hrfind : pyRfind (textStripped t) '\x7d' with
            | none => simp [hfind, hrfind]
            | some b =>
              simp only [hfind, hrfind] at h ⊢
              cases hloads : loads (pySlice (textStripped t) a (b + 1)) with
              | none => simp [hloads]
              | some ps =>
                obtain ⟨p, s⟩ := ps
                simp only [hloads] at h ⊢
                by_cases hp : pyStrip p = ""
                · simp [hp]
                · by_cases hs : pyStrip s = ""
                  · simp [hs]
                  · simp [hp, hs] at h

theorem quiz_failure_falls_back_witness :
    get_quiz envNone .exn = fallback_question envNone :=
  quiz_failure_falls_back envNone .exn rfl

theorem pyTake_length_le (s : String) (n : Nat) : (pyTake s n).length ≤ n := by
  show (s.data.take n).length ≤ n
  rw [List.length_take]
  exact Nat.min_le_left _ _

theorem pyTake_ne_empty {s : String} {n : Nat} (h : s ≠ "") (hn : 0 < n) :
    pyTake s n ≠ "" := by
  intro he
  have hd : s.data.take n = ([] : List Char) := congrArg String.data he
  rcases List.take_eq_nil_iff.mp hd with h0 | h0
  · exact absurd h0 (Nat.pos_iff_ne_zero.mp hn)
  · apply h
    cases s with
    | mk data =>
      simp only at h0
      rw [h0]

theorem pool_items_good :
    ∀ q ∈ pool, q.prompt ≠ "" ∧ q.prompt.length ≤ 300 ∧
      q.solution ≠ "" ∧ q.solution.length ≤ 100 := by decide

theorem fallback_good (env : Env) :
    (fallback_question env).prompt ≠ "" ∧ (fallback_question env).prompt.length ≤ 300 ∧
      (fallback_question env).solution ≠ "" ∧ (fallback_question env).solution.length ≤ 100 :=
  pool_items_good _ (fallback_mem env)

/-- C2: every value get_quiz can return, from the success path or the
fallback pool, has a non-empty prompt of at most 300 characters and a
non-empty solution of at most 100 characters. -/
theorem quiz_item_bounds (env : Env) (up : Upstream) :
    (get_quiz env up).prompt ≠ "" ∧ (get_quiz env up).prompt.length ≤ 300 ∧
      (get_quiz env up).solution ≠ "" ∧ (get_quiz env up).solution.length ≤ 100 := by
  have hfb := fallback_good env
  cases hk : truthy (env "GEMINI_API_KEY") with
  | false => cases up <;> simpa [get_quiz, hk] using hfb
  | true =>
    cases up with
    | exn => simpa [get_quiz, hk] using hfb
    | reply text loads =>
      cases text with
      | none => simpa [get_quiz, hk] using hfb
      | some t =>
        simp only [get_quiz, hk, Bool.not_true, Bool.false_eq_true, if_false]
        by_cases ht : t = ""
        · simpa [ht] using hfb
        · simp only [ht, if_false]
          cases hfind : pyFind (textStripped t) '\x7b' with
          | none => simpa [hfind] using hfb
          | some a =>
            cases hrfind : pyRfind (textStripped t) '\x7d' with
            | none => simpa [hfind, hrfind] using hfb
            | some b =>
              simp only [hfind, hrfind]
              cases hloads : loads (pySlice (textStripped t) a (b + 1)) with
              | none => simpa [hloads] using hfb
              | some ps =>
                obtain ⟨p, s⟩ := ps
                simp only [hloads]
                by_cases hp : pyStrip p = ""
                · simpa [hp] using hfb
                · by_cases hs : pyStrip s = ""
                  · simpa [hp, hs] using hfb
                  · simp only [hp, hs, false_or, if_false]
                    exact ⟨pyTake_ne_empty hp (by decide), pyTake_length_le _ _,
                      pyTake_ne_empty hs (by decide), pyTake_length_le _ _⟩

/-- C6: when the credential is truthy and the extracted text is non-empty,
a brace pair is locatable in the stripped text, the sliced string parses to
prompt and solution fields both non-empty after trimming, get_quiz returns
exactly those trimmed values truncated to 300 and 100 characters. -/
theorem quiz_success_path (env : Env) (t p s : String)
    (loads : String → Option (String × String)) (a b : Nat)
    (hkey : truthy (env "GEMINI_API_KEY") = true)
    (ht : t ≠ "")
    (hfind : pyFind (textStripped t) '\x7b' = some a)
    (hrfind : pyRfind (textStripped t) '\x7d' = some b)
    (hloads : loads (pySlice (textStripped t) a (b + 1)) = some (p, s))
    (hp : pyStrip p ≠ "")
    (hs : pyStrip s ≠ "") :
    get_quiz env (.reply (some t) loads) =
      { prompt := pyTake (pyStrip p) 300, solution := pyTake (pyStrip s) 100 } := by
  simp [get_quiz, hkey, ht, hfind, hrfind, hloads, hp, hs]

theorem quiz_success_path_witness :
    get_quiz envKey (.reply (some "\x7bx\x7d") loadsW)
      = { prompt := pyTake (pyStrip "Q1") 300, solution := pyTake (pyStrip "A1") 100 } :=
  quiz_success_path envKey "\x7bx\x7d" "Q1" "A1" loadsW 0 2 rfl (by decide)
    (by decide) (by decide) (by decide) (by decide) (by decide)

/-- C7: for every outcome of the database collaborator and every environment,
the /test response carries exactly the six documented keys, in insertion
order. -/
theorem test_database_keys (env : Env) (out : DbOutcome) :
    (test_database env out).map Prod.fst =
      ["backend", "database", "database_url", "database_name",
        "connection_status", "collections"] := by
  cases out with
  | importError => rfl
  | importExn m => rfl
  | dbNone => rfl
  | dbSome hname cols => cases cols with
    | ok names => rfl
    | error e => rfl

/-- C8: on a successful enumeration the collections field holds exactly the
first 10 of the enumerated names, hence at most 10 names. -/
theorem test_database_collections (env : Env) (hname : Option String)
    (cols : List String) :
    List.lookup "collections" (test_database env (.dbSome hname (.ok cols)))
        = some (Val.arr (cols.take 10)) ∧ (cols.take 10).length ≤ 10 := by
  constructor
  · rfl
  · rw [List.length_take]
    exact Nat.min_le_left _ _

theorem lookup_database_url (env : Env) (out : DbOutcome) :
    List.lookup "database_url" (test_database env out)
      = some (.s (if truthy (env "DATABASE_URL") then "✅ Set" else "❌ Not Set")) := by
  cases out with
  | importError => rfl
  | importExn m => rfl
  | dbNone => rfl
  | dbSome hname cols => cases cols <;> rfl

theorem lookup_database_name (env : Env) (out : DbOutcome) :
    List.lookup "database_name" (test_database env out)
      = some (.s (if truthy (env "DATABASE_NAME") then "✅ Set" else "❌ Not Set")) := by
  cases out with
  | importError => rfl
  | importExn m => rfl
  | dbNone => rfl
  | dbSome hname cols => cases cols <;> rfl

/-- C9 counterexample: the database_url field does depend on the value of the
variable, not only on its presence: with DATABASE_URL present but empty the
field reads «Not Set», with DATABASE_URL present and equal to x it reads
«Set», although both environments agree that the variable is present. -/
theorem test_presence_counterexample :
    (envUrlEmpty "DATABASE_URL").isSome = true ∧
    (envUrlX "DATABASE_URL").isSome = true ∧
    envUrlEmpty "DATABASE_NAME" = none ∧ envUrlX "DATABASE_NAME" = none ∧
    List.lookup "database_url" (test_database envUrlEmpty .importError)
      ≠ List.lookup "database_url" (test_database envUrlX .importError) := by
  refine ⟨rfl, rfl, rfl, rfl, ?_⟩
  decide

/-- C9 amended: the database_url and database_name fields depend only on the
truthiness of the two variables (set to a non-empty string or not), never on
the database collaborator, and each is always one of the two fixed strings. -/
theorem test_presence_amended (e1 e2 : Env) (o1 o2 : DbOutcome)
    (hu : truthy (e1 "DATABASE_URL") = truthy (e2 "DATABASE_URL"))
    (hn : truthy (e1 "DATABASE_NAME") = truthy (e2 "DATABASE_NAME")) :
    List.lookup "database_url" (test_database e1 o1)
        = List.lookup "database_url" (test_database e2 o2) ∧
    List.lookup "database_name" (test_database e1 o1)
        = List.lookup "database_name" (test_database e2 o2) ∧
    (List.lookup "database_url" (test_database e1 o1) = some (Val.s "✅ Set") ∨
      List.lookup "database_url" (test_database e1 o1) = some (Val.s "❌ Not Set")) ∧
    (List.lookup "database_name" (test_database e1 o1) = some (Val.s "✅ Set") ∨
      List.lookup "database_name" (test_database e1 o1) = some (Val.s "❌ Not Set")) := by
  refine ⟨?_, ?_, ?_, ?_⟩
  · rw [lookup_database_url, lookup_database_url, hu]
  · rw [lookup_database_name, lookup_database_name, hn]
  · rw [lookup_database_url]
    cases h1 : truthy (e1 "DATABASE_URL") <;> simp
  · rw [lookup_database_name]
    cases h1 : truthy (e1 "DATABASE_NAME") <;> simp

theorem test_presence_amended_witness :
    List.lookup "database_url" (test_database envUrlX .importError)
        = List.lookup "database_url" (test_database envUrlY .dbNone) ∧
    List.lookup "database_name" (test_database envUrlX .importError)
        = List.lookup "database_name" (test_database envUrlY .dbNone) ∧
    (List.lookup "database_url" (test_database envUrlX .importError) = some (Val.s "✅ Set") ∨
      List.lookup "database_url" (test_database envUrlX .importError) = some (Val.s "❌ Not Set")) ∧
    (List.lookup "database_name" (test_database envUrlX .importError) = some (Val.s "✅ Set") ∨
      List.lookup "database_name" (test_database envUrlX .importError) = some (Val.s "❌ Not Set")) :=
  test_presence_amended envUrlX envUrlY .importError .dbNone (by decide) (by decide)

end QuizBackend
